import Mathlib

/-!
Verification of the user CRUD and auth request handlers of the 2Mean
repository. The JavaScript controllers are shallowly embedded: mongoose
documents become a Lean structure, the user collection becomes a list of
such structures, each request handler becomes a pure function from the
request data and the current store to an HTTP response together with the
store it leaves behind, and the external collaborators (password hashing,
token generation, md5, the password strength pattern, the regex used by
list search) are passed in as function parameters.
-/

namespace TwoMean

/-- Subdocument holding a token and its expiry, as in the mongoose
`verification` and `resetPassword` fields. A field that is `undefined`
in JavaScript is `none` here. -/
structure TokenInfo where
  token : Option String
  expires : Option Nat
  deriving Repr, DecidableEq

/-- A user document of the `User` mongoose model. String fields that the
schema supplies a default for are plain strings; optional fields are
`Option`. Timestamps are naturals (milliseconds). -/
structure User where
  _id : String
  username : String
  email : String
  password : Option String
  displayName : Option String
  firstName : Option String
  lastName : Option String
  profileImageURL : Option String
  role : String
  subroles : List String
  verified : Bool
  verification : Option TokenInfo
  resetPassword : Option TokenInfo
  created : Nat
  updated : Nat
  deriving Repr, DecidableEq

/-- Bodies that the handlers send with `res.status(...).send(...)`. -/
inductive ResponseBody where
  /-- an empty `send()` -/
  | empty : ResponseBody
  /-- a body of the shape with an `error` key -/
  | errorMsg : String → ResponseBody
  /-- a body of the shape with a `message` key -/
  | messageMsg : String → ResponseBody
  /-- a single user document -/
  | userRecord : User → ResponseBody
  /-- an array of user documents -/
  | userList : List User → ResponseBody
  /-- the body sent by register: the saved user plus an optional warning -/
  | registered : User → Option String → ResponseBody
  deriving Repr, DecidableEq

/-- An HTTP response: status code and body. -/
structure HttpResponse where
  status : Nat
  body : ResponseBody
  deriving Repr, DecidableEq

/-- Strips the secret fields from a user document before it leaves the
system, as `sanitizeUser` in the crud controller: the password is removed,
and when the `verification` or `resetPassword` subdocuments are present
their tokens are removed. All other fields survive the JSON deep copy
unchanged. -/
def sanitizeUser (user : User) : User :=
  { user with
    password := none
    verification := user.verification.map (fun v => { v with token := none })
    resetPassword := user.resetPassword.map (fun v => { v with token := none }) }

/-- Page size used by list, `pageLimit` in the crud controller. -/
def pageLimit : Nat := 25

/-- Admin role label, `ADMIN_ROLE_NAME` in the crud controller. -/
def ADMIN_ROLE_NAME : String := "admin"

/-- Whether the request targets the data of the requester, `isSelf`. -/
def isSelf (user : User) (id : String) : Bool :=
  user._id == id

/-- Authorization check, `isAuthorized`: the action is allowed when the
subroles of the user include the admin label; the action name is unused
by the source. -/
def isAuthorized (user : User) (action : String) : Bool :=
  user.subroles.contains ADMIN_ROLE_NAME

/-- Model of `Users.findOne` on an id filter: the first document of the
collection whose id matches, or nothing. -/
def findOne (store : List User) (id : String) : Option User :=
  store.find? (fun u => u._id == id)

/-- The read handler. The id parameter is `req.params.userId || null`, so
a missing or empty id is malformed. When the caller is the target or has
the admin subrole the target is looked up; a missing target is 404. On
success the source sends `sanitizeUser(user)` where `user` is `req.user`,
the acting principal, not the looked-up document. -/
def read (store : List User) (reqUser : User) (userIdParam : Option String) :
    HttpResponse :=
  let id : Option String :=
    match userIdParam with
    | some s => if s == "" then none else some s
    | none => none
  match id with
  | none => ⟨400, ResponseBody.errorMsg "Malformed request"⟩
  | some i =>
    if isSelf reqUser i || isAuthorized reqUser "read" then
      match findOne store i with
      | some _ => ⟨200, ResponseBody.userRecord (sanitizeUser reqUser)⟩
      | none => ⟨404, ResponseBody.empty⟩
    else
      ⟨403, ResponseBody.empty⟩

/-- Ordering on strings used to model the sort of the store on the
username key: lexicographic on the character lists. -/
def charListLe : List Char → List Char → Bool
  | [], _ => true
  | _ :: _, [] => false
  | a :: as, b :: bs => if a = b then charListLe as bs else decide (a < b)

/-- String comparison for the username sort. -/
def strLe (a b : String) : Bool :=
  charListLe a.toList b.toList

/-- Model of the mongoose sort on the username key: the collection
sorted by username ascending. -/
def sortByUsername (store : List User) : List User :=
  store.mergeSort (fun a b => strLe a.username b.username)

/-- The list handler: page defaults to 1, an empty search applies no
filter, a non-empty search filters usernames through the regex built from
the search string (the regex engine is external, passed as `regexTest`);
the matches are sorted by username, `(page-1)*pageLimit` are skipped,
`pageLimit` are kept, and each survivor is sanitized. -/
def list (store : List User) (regexTest : String → String → Bool)
    (page : Nat) (search : String) : HttpResponse :=
  let page := if page == 0 then 1 else page
  let skip := (page - 1) * pageLimit
  let matched :=
    if search == "" then store
    else store.filter (fun u => regexTest search u.username)
  ⟨200, ResponseBody.userList
    ((((sortByUsername matched).drop skip).take pageLimit).map sanitizeUser)⟩

/-- The flushSubroles bulk update: `Users.update` with a role filter, a
set of the subroles field and the multi flag replaces the subroles of
every document whose role equals the parent role and touches nothing
else. -/
def flushSubroles (store : List User) (parentRole : String)
    (subroles : List String) : List User :=
  store.map (fun u =>
    if u.role == parentRole then { u with subroles := subroles } else u)

/-- Application configuration consumed by the auth controller (external,
`config/config.js`). -/
structure AppConfig where
  allowRegistration : Bool
  defaultUserRole : String
  requireEmailVerification : Bool
  emailVerificationTTL : Nat
  invalidPasswordMessage : String
  emailFrom : String
  deriving Repr, DecidableEq

/-- External auth helper facade: password hashing, a fresh unique token
for this request, the base URL, md5, and the configured password strength
pattern as a predicate. -/
structure AuthHelpers where
  hashPassword : String → String
  generateUniqueToken : String
  generateUrl : String
  md5hash : String → String
  passwordStrengthRe : String → Bool

/-- Inbound request body fields that the user schema declares and the
register mapping may copy. A missing field is `none`. -/
structure RequestBody where
  username : Option String
  email : Option String
  password : Option String
  displayName : Option String
  firstName : Option String
  lastName : Option String
  role : Option String
  deriving Repr, DecidableEq

/-- JavaScript truthiness of an optional string field: present and
non-empty. -/
def truthy : Option String → Option String
  | some s => if s == "" then none else some s
  | none => none

/-- JavaScript string coercion of a possibly-undefined value, as it
happens in string concatenation and in regex application. -/
def jsStr (s : Option String) : String :=
  s.getD "undefined"

/-- The `mapUser` schema allow-list copy: a fresh document whose fields
hold the truthy body fields, stamped with creation and update times. -/
def mapUser (freshId : String) (now : Nat) (body : RequestBody) : User :=
  { _id := freshId
    username := (truthy body.username).getD ""
    email := (truthy body.email).getD ""
    password := truthy body.password
    displayName := truthy body.displayName
    firstName := truthy body.firstName
    lastName := truthy body.lastName
    profileImageURL := none
    role := (truthy body.role).getD ""
    subroles := []
    verified := false
    verification := none
    resetPassword := none
    created := now
    updated := now }

/-- The `isStrongPassword` check: the configured pattern applied to the
password; an absent password is coerced to a string by the regex engine. -/
def isStrongPassword (strengthRe : String → Bool) (password : Option String) :
    Bool :=
  strengthRe (jsStr password)

/-- Gravatar identicon URL derived from the md5 of the lower-cased
email. -/
def generateProfileImageURL (md5hash : String → String) (email : String) :
    String :=
  "https://gravatar.com/avatar/" ++ md5hash email.toLower ++ "?d=identicon"

/-- Model of the message the document store driver reports on a
duplicate-key failure (code 11000): the violated index is named after
the `index:` word. -/
def dupKeyErrMsg (indexName : String) : String :=
  "E11000 duplicate key error collection: db.users index: " ++ indexName ++
    " dup key: x"

/-- Model of inserting a new document into the store: the unique indexes
on username and email make the insert fail with a duplicate-key message
when a stored document already carries the same username or email. -/
def saveNewUser (store : List User) (u : User) : Except String (List User) :=
  if store.any (fun v => v.username == u.username) then
    Except.error (dupKeyErrMsg "username_1")
  else if store.any (fun v => v.email == u.email) then
    Except.error (dupKeyErrMsg "email_1")
  else
    Except.ok (store ++ [u])

/-- Splitting a string on single spaces, as the JavaScript split with a
space separator does. -/
def splitSpacesAux : List Char → List Char → List String
  | [], acc => [String.mk acc.reverse]
  | c :: cs, acc =>
    if c = ' ' then String.mk acc.reverse :: splitSpacesAux cs []
    else splitSpacesAux cs (c :: acc)

/-- JavaScript split on a space. -/
def jsSplitSpace (s : String) : List String :=
  splitSpacesAux s.toList []

/-- JavaScript Array.indexOf: the position of the first occurrence, or
minus one. -/
def jsIndexOf (l : List String) (s : String) : Int :=
  match l.findIdx? (fun x => x == s) with
  | some i => (i : Int)
  | none => -1

/-- The duplicate-index extraction of register: split the driver message
on spaces and take the word after `index:`; a position that falls outside
the array is undefined, modelled as `none`. -/
def dupIndexName (errmsg : String) : Option String :=
  let errmsgList := jsSplitSpace errmsg
  errmsgList[(jsIndexOf errmsgList "index:" + 1).toNat]?

/-- The register handler. The body is mapped through the schema
allow-list, the avatar URL is derived, the role is forced to the default;
a disabled registration answers 500, a weak password 400 with the policy
message; otherwise the password is hashed, a verification token with
expiry is attached and the document is inserted. A duplicate username
answers 400, any other duplicate 500; on success 201, with a warning
field when the verification email could not be sent (mailOk false). -/
def register (cfg : AppConfig) (helpers : AuthHelpers) (freshId : String)
    (now : Nat) (mailOk : Bool) (store : List User) (body : RequestBody) :
    HttpResponse × List User :=
  let mapped := mapUser freshId now body
  let mapped := { mapped with
    profileImageURL :=
      some (generateProfileImageURL helpers.md5hash mapped.email)
    role := cfg.defaultUserRole }
  if !cfg.allowRegistration then
    (⟨500, ResponseBody.empty⟩, store)
  else if !(isStrongPassword helpers.passwordStrengthRe mapped.password) then
    (⟨400, ResponseBody.errorMsg
      ("Invalid password: " ++ cfg.invalidPasswordMessage)⟩, store)
  else
    let toSave := { mapped with
      password := some (helpers.hashPassword (jsStr mapped.password))
      verification := some
        ⟨some helpers.generateUniqueToken,
         some (now + cfg.emailVerificationTTL)⟩ }
    match saveNewUser store toSave with
    | Except.error errmsg =>
      if dupIndexName errmsg == some "username_1" then
        (⟨400, ResponseBody.errorMsg "Username is taken"⟩, store)
      else
        (⟨500, ResponseBody.empty⟩, store)
    | Except.ok newStore =>
      if cfg.requireEmailVerification then
        if mailOk then
          (⟨201, ResponseBody.registered toSave none⟩, newStore)
        else
          (⟨201, ResponseBody.registered toSave
            (some "Verification email not sent")⟩, newStore)
      else
        (⟨201, ResponseBody.registered toSave none⟩, newStore)

/-- Model of saving mutations to a document already in the store: the
document with the same id is replaced. -/
def saveExisting (store : List User) (u : User) : List User :=
  store.map (fun v => if v._id == u._id then u else v)

/-- The verifyEmail handler: the first user whose verification token
matches is looked up; no match answers 400 Token invalid; a match whose
expiry lies in the past answers 400 Token has expired and changes
nothing; otherwise the expiry is cleared, the user marked verified and
saved, and the answer is 204. -/
def verifyEmail (now : Nat) (store : List User) (token : Option String) :
    HttpResponse × List User :=
  match store.find?
      (fun u => (u.verification.bind TokenInfo.token) == token) with
  | none => (⟨400, ResponseBody.messageMsg "Token invalid"⟩, store)
  | some user =>
    let expired : Bool :=
      match user.verification.bind TokenInfo.expires with
      | some e => decide (now > e)
      | none => false
    if expired then
      (⟨400, ResponseBody.messageMsg "Token has expired"⟩, store)
    else
      let saved := { user with
        verification := user.verification.map (fun v => { v with expires := none })
        verified := true }
      (⟨204, ResponseBody.empty⟩, saveExisting store saved)

/-- An email handed to the external mailer. -/
structure EmailMessage where
  emailFrom : String
  emailTo : String
  subject : String
  text : String
  deriving Repr, DecidableEq

/-- The password change email: subject, recipient and a body whose link
carries `user.verification.token` (the source reads the verification
token here, not the reset token). -/
def sendPasswordChangeEmail (cfg : AppConfig) (helpers : AuthHelpers)
    (user : User) : EmailMessage :=
  let url := helpers.generateUrl ++ "/reset-password;token=" ++
    jsStr (user.verification.bind TokenInfo.token)
  { emailFrom := cfg.emailFrom
    emailTo := user.email
    subject := "Change Password"
    text := "Change your password by going here: " ++ url }

/-- The requestChangePasswordEmail handler: a missing email answers 400
Missing email; the store is filtered on the email and anything except a
single match answers 400 Email not found; the match receives a fresh
reset token with expiry, is saved, the password change email for the
saved document is produced and the answer is 204. -/
def requestChangePasswordEmail (cfg : AppConfig) (helpers : AuthHelpers)
    (now : Nat) (store : List User) (emailParam : Option String) :
    HttpResponse × List User × Option EmailMessage :=
  match truthy emailParam with
  | none => (⟨400, ResponseBody.errorMsg "Missing email"⟩, store, none)
  | some email =>
    match store.filter (fun u => u.email == email) with
    | [user] =>
      let saved := { user with
        resetPassword := some
          ⟨some helpers.generateUniqueToken,
           some (now + cfg.emailVerificationTTL)⟩ }
      (⟨204, ResponseBody.empty⟩, saveExisting store saved,
        some (sendPasswordChangeEmail cfg helpers saved))
    | _ => (⟨400, ResponseBody.errorMsg "Email not found"⟩, store, none)

/-- The resetPassword handler: a missing password or token answers 400; a
weak password answers 400 Password invalid; the store is filtered on the
reset token and anything except a single match answers 400 Token invalid;
an expiry in the past answers 400 Token has expired; otherwise the
password is replaced by its hash, the resetPassword subdocument is
replaced by an empty one, the user is marked verified and saved, and the
answer is 204. -/
def resetPassword (helpers : AuthHelpers) (now : Nat) (store : List User)
    (passwordParam tokenParam : Option String) : HttpResponse × List User :=
  match truthy passwordParam with
  | none => (⟨400, ResponseBody.errorMsg "Missing password"⟩, store)
  | some password =>
    match truthy tokenParam with
    | none => (⟨400, ResponseBody.errorMsg "Missing token"⟩, store)
    | some token =>
      if helpers.passwordStrengthRe password then
        match store.filter
            (fun u => (u.resetPassword.bind TokenInfo.token) == some token) with
        | [user] =>
          let expired : Bool :=
            match user.resetPassword.bind TokenInfo.expires with
            | some e => decide (now > e)
            | none => false
          if expired then
            (⟨400, ResponseBody.errorMsg "Token has expired"⟩, store)
          else
            let saved := { user with
              password := some (helpers.hashPassword password)
              resetPassword := some ⟨none, none⟩
              verified := true }
            (⟨204, ResponseBody.empty⟩, saveExisting store saved)
        | _ => (⟨400, ResponseBody.errorMsg "Token invalid"⟩, store)
      else
        (⟨400, ResponseBody.errorMsg "Password invalid"⟩, store)

/-- Helper building a concrete user record for concrete-input theorems. -/
def mkUser (id username email role : String) (subroles : List String) : User :=
  { _id := id, username := username, email := email, password := some "hashed"
    displayName := none, firstName := none, lastName := none
    profileImageURL := none, role := role, subroles := subroles
    verified := false, verification := none, resetPassword := none
    created := 0, updated := 0 }

/-- Concrete caller used to instantiate the read authorization theorem. -/
def c3User : User := mkUser "u1" "ali" "ali@x.io" "user" []

/-- Concrete store of 50 users used to instantiate the list theorem. -/
def c4Store : List User :=
  (List.range 50).map (fun i => mkUser (toString i) (toString i) (toString i) "user" [])

/-- Concrete external helpers used to instantiate the auth theorems. -/
def cHelpers : AuthHelpers :=
  { hashPassword := fun s => "hash:" ++ s
    generateUniqueToken := "fresh-token"
    generateUrl := "https://app.example"
    md5hash := fun s => "md5:" ++ s
    passwordStrengthRe := fun s => s == "NewStrongP@ss1" }

/-- Concrete application configuration used to instantiate the auth
theorems. -/
def cConfig : AppConfig :=
  { allowRegistration := true
    defaultUserRole := "user"
    requireEmailVerification := true
    emailVerificationTTL := 1000
    invalidPasswordMessage := "password too weak"
    emailFrom := "noreply@x.io" }

/-- Concrete registration body with a weak password. -/
def c5Body : RequestBody :=
  { username := some "newbie", email := some "new@x.io"
    password := some "abc", displayName := none, firstName := none
    lastName := none, role := none }

/-- Concrete registration body with a strong password. -/
def c6Body : RequestBody :=
  { username := some "newbie", email := some "new@x.io"
    password := some "NewStrongP@ss1", displayName := none
    firstName := none, lastName := none, role := none }

/-- Store holding a user whose username collides with c6Body. -/
def c6Store : List User := [mkUser "a1" "newbie" "old@x.io" "user" []]

/-- Store holding a user whose email collides with c6Body. -/
def c6StoreEmail : List User := [mkUser "a1" "other" "new@x.io" "user" []]

/-- Concrete user carrying an expired verification token. -/
def c7User : User :=
  { mkUser "v1" "vera" "vera@x.io" "user" [] with
    verification := some ⟨some "tok7", some 100⟩ }

/-- Concrete user carrying a future reset-password token. -/
def c8User : User :=
  { mkUser "r1" "rita" "rita@x.io" "user" [] with
    resetPassword := some ⟨some "tok8", some 1000⟩ }

/-- Concrete user holding both a verification token and, once the
request handler runs, a fresh reset token. -/
def c10User : User :=
  { mkUser "w1" "wong" "wong@x.io" "user" [] with
    verification := some ⟨some "vtok", some 99⟩ }

/-- Concrete editor-role user for the flushSubroles instantiation. -/
def c9Editor : User := mkUser "e1" "edna" "edna@x.io" "editor" ["old"]

/-- Concrete non-editor user for the flushSubroles instantiation. -/
def c9Other : User := mkUser "o1" "omar" "omar@x.io" "user" ["user"]

end TwoMean

namespace TwoMean

/-- C1: sanitizeUser strips the password, the verification token and the
reset-password token from every user record, whether or not they were
present, and preserves every other field of the record. -/
theorem sanitizeUser_strips_secrets_and_preserves_rest (u : User) :
    (sanitizeUser u).password = none ∧
    (sanitizeUser u).verification.bind TokenInfo.token = none ∧
    (sanitizeUser u).resetPassword.bind TokenInfo.token = none ∧
    (sanitizeUser u)._id = u._id ∧
    (sanitizeUser u).username = u.username ∧
    (sanitizeUser u).email = u.email ∧
    (sanitizeUser u).displayName = u.displayName ∧
    (sanitizeUser u).firstName = u.firstName ∧
    (sanitizeUser u).lastName = u.lastName ∧
    (sanitizeUser u).profileImageURL = u.profileImageURL ∧
    (sanitizeUser u).role = u.role ∧
    (sanitizeUser u).subroles = u.subroles ∧
    (sanitizeUser u).verified = u.verified ∧
    (sanitizeUser u).created = u.created ∧
    (sanitizeUser u).updated = u.updated ∧
    (sanitizeUser u).verification.map TokenInfo.expires
      = u.verification.map TokenInfo.expires ∧
    (sanitizeUser u).resetPassword.map TokenInfo.expires
      = u.resetPassword.map TokenInfo.expires ∧
    (sanitizeUser u).verification.isSome = u.verification.isSome ∧
    (sanitizeUser u).resetPassword.isSome = u.resetPassword.isSome := by
  cases hv : u.verification <;> cases hr : u.resetPassword <;>
    simp [sanitizeUser, hv, hr]

/-- C2 (code-bug evidence): with an admin caller distinct from the target
and the target present in the store, read answers 200 but its body is the
sanitized acting principal, not the sanitized looked-up target record. -/
theorem read_success_sends_acting_principal_not_target :
    read [mkUser "idT" "bob" "bob@x.io" "user" []]
        (mkUser "idA" "alice" "alice@x.io" "admin" ["admin"]) (some "idT") =
      ⟨200, ResponseBody.userRecord
        (sanitizeUser (mkUser "idA" "alice" "alice@x.io" "admin" ["admin"]))⟩ ∧
    sanitizeUser (mkUser "idA" "alice" "alice@x.io" "admin" ["admin"]) ≠
      sanitizeUser (mkUser "idT" "bob" "bob@x.io" "user" []) := by
  constructor
  · rfl
  · decide

/-- C3: with a present, non-empty target id the gate of read succeeds
exactly when the caller id equals the target id or the caller subroles
contain the admin label; when neither holds the response is 403, and when
one holds the handler proceeds to a 200 or 404 answer. -/
theorem read_authorization_gate (store : List User) (reqUser : User)
    (id : String) (hid : id ≠ "") :
    ((isSelf reqUser id || isAuthorized reqUser "read") = true ↔
      (reqUser._id = id ∨ ADMIN_ROLE_NAME ∈ reqUser.subroles)) ∧
    (¬(reqUser._id = id ∨ ADMIN_ROLE_NAME ∈ reqUser.subroles) →
      read store reqUser (some id) = ⟨403, ResponseBody.empty⟩) ∧
    ((reqUser._id = id ∨ ADMIN_ROLE_NAME ∈ reqUser.subroles) →
      (read store reqUser (some id)).status = 200 ∨
      (read store reqUser (some id)).status = 404) := by
  have hbeq : (id == "") = false := beq_eq_false_iff_ne.mpr hid
  have hgate : (isSelf reqUser id || isAuthorized reqUser "read") = true ↔
      (reqUser._id = id ∨ ADMIN_ROLE_NAME ∈ reqUser.subroles) := by
    simp [isSelf, isAuthorized, List.elem_iff]
  refine ⟨hgate, ?_, ?_⟩
  · intro h
    have hg : (isSelf reqUser id || isAuthorized reqUser "read") = false := by
      rw [← Bool.not_eq_true]
      simpa [hgate] using h
    simp [read, hbeq, hg]
  · intro h
    have hg : (isSelf reqUser id || isAuthorized reqUser "read") = true :=
      hgate.mpr h
    cases hf : findOne store id <;> simp [read, hbeq, hg, hf]

/-- Witness for the read authorization theorem at a concrete caller that
owns the target id, against an empty store. -/
theorem read_authorization_gate_witness :
    ((isSelf c3User "u1" || isAuthorized c3User "read") = true ↔
      (c3User._id = "u1" ∨ ADMIN_ROLE_NAME ∈ c3User.subroles)) ∧
    (¬(c3User._id = "u1" ∨ ADMIN_ROLE_NAME ∈ c3User.subroles) →
      read [] c3User (some "u1") = ⟨403, ResponseBody.empty⟩) ∧
    ((c3User._id = "u1" ∨ ADMIN_ROLE_NAME ∈ c3User.subroles) →
      (read [] c3User (some "u1")).status = 200 ∨
      (read [] c3User (some "u1")).status = 404) :=
  read_authorization_gate [] c3User "u1" (by decide)

/-- C4: with at least 50 users in the store and an empty search, list at
page 2 answers 200 with the records of the username-ascending ordering at
positions 26 through 50 (skip 25, take 25), each sanitized: the slice has
exactly 25 entries and its entry i is entry 25 + i of the ordering. -/
theorem list_page2_returns_sorted_positions_26_to_50 (store : List User)
    (regexTest : String → String → Bool) (h : 50 ≤ store.length) :
    list store regexTest 2 "" =
      ⟨200, ResponseBody.userList
        ((((sortByUsername store).drop 25).take 25).map sanitizeUser)⟩ ∧
    (((sortByUsername store).drop 25).take 25).length = 25 ∧
    ∀ i, i < 25 →
      (((sortByUsername store).drop 25).take 25)[i]? =
        (sortByUsername store)[25 + i]? := by
  have hl : (sortByUsername store).length = store.length := by
    unfold sortByUsername
    exact List.length_mergeSort store
  refine ⟨rfl, ?_, ?_⟩
  · simp [List.length_take, List.length_drop, hl]
    omega
  · intro i hi
    simp [List.getElem?_take, hi, List.getElem?_drop]

/-- Witness for the list pagination theorem at a concrete store of 50
users. -/
theorem list_page2_witness :
    list c4Store (fun _ _ => false) 2 "" =
      ⟨200, ResponseBody.userList
        ((((sortByUsername c4Store).drop 25).take 25).map sanitizeUser)⟩ ∧
    (((sortByUsername c4Store).drop 25).take 25).length = 25 ∧
    ∀ i, i < 25 →
      (((sortByUsername c4Store).drop 25).take 25)[i]? =
        (sortByUsername c4Store)[25 + i]? :=
  list_page2_returns_sorted_positions_26_to_50 c4Store (fun _ _ => false)
    (by simp [c4Store])

/-- C9: flushSubroles keeps the store size, gives every user of the
parent role exactly the new subroles, and leaves every user of another
role unchanged in all fields: positionally, a matching record is replaced
by the same record with the new subroles and a non-matching record is
kept as it was. -/
theorem flushSubroles_sets_matching_and_frames_rest (store : List User)
    (parentRole : String) (subroles : List String) :
    (flushSubroles store parentRole subroles).length = store.length ∧
    (∀ u, u ∈ flushSubroles store parentRole subroles →
      u.role = parentRole → u.subroles = subroles) ∧
    (∀ (i : Nat) (u : User), store[i]? = some u →
      (u.role = parentRole →
        (flushSubroles store parentRole subroles)[i]? =
          some { u with subroles := subroles }) ∧
      (u.role ≠ parentRole →
        (flushSubroles store parentRole subroles)[i]? = some u)) := by
  refine ⟨by simp [flushSubroles], ?_, ?_⟩
  · intro u hu hrole
    simp only [flushSubroles, List.mem_map] at hu
    obtain ⟨v, hv, rfl⟩ := hu
    by_cases hvr : v.role == parentRole
    · simp [hvr]
    · rw [if_neg (by simpa using hvr)] at hrole ⊢
      exact absurd hrole (by simpa using hvr)
  · intro i u hu
    constructor
    · intro hr
      simp [flushSubroles, List.getElem?_map, hu, hr]
    · intro hr
      simp [flushSubroles, List.getElem?_map, hu]
      intro h
      exact absurd h hr

/-- Witness for the flushSubroles theorem on a concrete two-user store:
the editor record gets the new subroles, the other record is untouched. -/
theorem flushSubroles_witness :
    ((flushSubroles [c9Editor, c9Other] "editor" ["content", "review"])[0]? =
      some { c9Editor with subroles := ["content", "review"] }) ∧
    ((flushSubroles [c9Editor, c9Other] "editor" ["content", "review"])[1]? =
      some c9Other) := by
  refine ⟨?_, ?_⟩
  · exact ((flushSubroles_sets_matching_and_frames_rest [c9Editor, c9Other]
      "editor" ["content", "review"]).2.2 0 c9Editor rfl).1 (by decide)
  · exact ((flushSubroles_sets_matching_and_frames_rest [c9Editor, c9Other]
      "editor" ["content", "review"]).2.2 1 c9Other rfl).2 (by decide)

/-- C5: with registration enabled, a registration whose password fails
the strength pattern answers 400 with the policy message and leaves the
store exactly as it was. -/
theorem register_weak_password_rejected_no_write (cfg : AppConfig)
    (helpers : AuthHelpers) (freshId : String) (now : Nat) (mailOk : Bool)
    (store : List User) (body : RequestBody) (p : String)
    (hallow : cfg.allowRegistration = true)
    (hp : body.password = some p) (hpne : p ≠ "")
    (hweak : helpers.passwordStrengthRe p = false) :
    register cfg helpers freshId now mailOk store body =
      (⟨400, ResponseBody.errorMsg
        ("Invalid password: " ++ cfg.invalidPasswordMessage)⟩, store) := by
  have hpt : truthy body.password = some p := by
    simp [truthy, hp, hpne]
  simp [register, mapUser, isStrongPassword, jsStr, hallow, hpt, hweak]

/-- Witness for the weak-password registration theorem at the concrete
password abc against the concrete strength pattern. -/
theorem register_weak_password_witness :
    register cConfig cHelpers "f1" 0 true [] c5Body =
      (⟨400, ResponseBody.errorMsg
        ("Invalid password: " ++ cConfig.invalidPasswordMessage)⟩, []) :=
  register_weak_password_rejected_no_write cConfig cHelpers "f1" 0 true []
    c5Body "abc" rfl rfl (by decide) (by decide)

/-- The word after `index:` in the username duplicate message equals the
username index name. -/
theorem dupIndexName_username_eq :
    (dupIndexName (dupKeyErrMsg "username_1") == some "username_1") = true := by
  decide

/-- The word after `index:` in the email duplicate message differs from
the username index name. -/
theorem dupIndexName_email_ne :
    (dupIndexName (dupKeyErrMsg "email_1") == some "username_1") = false := by
  decide

/-- C6: when the insert of an otherwise valid registration fails on a
duplicate key, a duplicated username index answers 400 Username is taken
and any other duplicated index (here the email index) answers 500, and in
both cases the store is exactly as it was, so no new record exists. -/
theorem register_duplicate_key_responses (cfg : AppConfig)
    (helpers : AuthHelpers) (freshId : String) (now : Nat) (mailOk : Bool)
    (store : List User) (body : RequestBody)
    (hallow : cfg.allowRegistration = true)
    (hstrong : isStrongPassword helpers.passwordStrengthRe
      (mapUser freshId now body).password = true) :
    (store.any (fun v => v.username == (mapUser freshId now body).username)
        = true →
      register cfg helpers freshId now mailOk store body =
        (⟨400, ResponseBody.errorMsg "Username is taken"⟩, store)) ∧
    (store.any (fun v => v.username == (mapUser freshId now body).username)
        = false →
      store.any (fun v => v.email == (mapUser freshId now body).email)
        = true →
      register cfg helpers freshId now mailOk store body =
        (⟨500, ResponseBody.empty⟩, store)) := by
  constructor
  · intro hdup
    simp [register, saveNewUser, hallow, hstrong, hdup, dupIndexName_username_eq]
  · intro hnodup hdupe
    simp [register, saveNewUser, hallow, hstrong, hnodup, hdupe,
      dupIndexName_email_ne]

/-- Witness for the duplicate-key registration theorem on two concrete
one-user stores, one colliding on username, one on email. -/
theorem register_duplicate_key_witness :
    register cConfig cHelpers "f1" 0 true c6Store c6Body =
      (⟨400, ResponseBody.errorMsg "Username is taken"⟩, c6Store) ∧
    register cConfig cHelpers "f1" 0 true c6StoreEmail c6Body =
      (⟨500, ResponseBody.empty⟩, c6StoreEmail) :=
  ⟨(register_duplicate_key_responses cConfig cHelpers "f1" 0 true c6Store
      c6Body rfl (by decide)).1 (by decide),
   (register_duplicate_key_responses cConfig cHelpers "f1" 0 true
      c6StoreEmail c6Body rfl (by decide)).2 (by decide) (by decide)⟩

/-- C7: a verifyEmail request whose token matches a user whose expiry
lies strictly before now answers 400 Token has expired and leaves the
whole store, the verified flag of that user included, unchanged. -/
theorem verifyEmail_expired_token_rejected_no_write (now : Nat)
    (store : List User) (t : String) (user : User) (e : Nat)
    (hfind : store.find?
      (fun u => (u.verification.bind TokenInfo.token) == some t) = some user)
    (hexp : user.verification.bind TokenInfo.expires = some e)
    (hpast : e < now) :
    verifyEmail now store (some t) =
      (⟨400, ResponseBody.messageMsg "Token has expired"⟩, store) := by
  simp [verifyEmail, hfind, hexp, hpast]

/-- Witness for the expired verification token theorem at a concrete
user whose token expired at 100 while now is 200. -/
theorem verifyEmail_expired_witness :
    verifyEmail 200 [c7User] (some "tok7") =
      (⟨400, ResponseBody.messageMsg "Token has expired"⟩, [c7User]) :=
  verifyEmail_expired_token_rejected_no_write 200 [c7User] "tok7" c7User 100
    (by decide) (by decide) (by decide)

/-- C8: a resetPassword request with present token and password, a
strength-valid password and a token matching exactly one user whose
expiry lies in the future answers 204 and persists that user with the
password replaced by its hash, the reset subdocument emptied of its token
and expiry, and the verified flag raised. -/
theorem resetPassword_success_updates_user (helpers : AuthHelpers)
    (now : Nat) (store : List User) (p t : String) (user : User) (e : Nat)
    (hpne : p ≠ "") (htne : t ≠ "")
    (hstrong : helpers.passwordStrengthRe p = true)
    (hmatch : store.filter
      (fun u => (u.resetPassword.bind TokenInfo.token) == some t) = [user])
    (hexp : user.resetPassword.bind TokenInfo.expires = some e)
    (hfuture : now < e) :
    resetPassword helpers now store (some p) (some t) =
      (⟨204, ResponseBody.empty⟩,
        saveExisting store { user with
          password := some (helpers.hashPassword p)
          resetPassword := some ⟨none, none⟩
          verified := true }) := by
  have hpt : truthy (some p) = some p := by simp [truthy, hpne]
  have htt : truthy (some t) = some t := by simp [truthy, htne]
  have hnexp : ¬(now > e) := by omega
  simp [resetPassword, hpt, htt, hstrong, hmatch, hexp, hnexp]

/-- Witness for the reset theorem at a concrete user whose reset token
expires at 1000 while now is 500, with the concrete strong password. -/
theorem resetPassword_success_witness :
    resetPassword cHelpers 500 [c8User] (some "NewStrongP@ss1")
        (some "tok8") =
      (⟨204, ResponseBody.empty⟩,
        saveExisting [c8User] { c8User with
          password := some (cHelpers.hashPassword "NewStrongP@ss1")
          resetPassword := some ⟨none, none⟩
          verified := true }) :=
  resetPassword_success_updates_user cHelpers 500 [c8User] "NewStrongP@ss1"
    "tok8" c8User 1000 (by decide) (by decide) (by decide) (by decide)
    (by decide) (by decide)

/-- C10: when requestChangePasswordEmail finds exactly one user for the
given email and that user carries a verification token vt, the handler
persists a fresh reset token on the user yet the emailed link embeds vt,
the verification token; so whenever vt differs from the fresh token, the
emailed token is not the token the reset lookup will match on. -/
theorem requestChangePasswordEmail_link_uses_verification_token
    (cfg : AppConfig) (helpers : AuthHelpers) (now : Nat) (store : List User)
    (email : String) (user : User) (vt : String)
    (hene : email ≠ "")
    (hmatch : store.filter (fun u => u.email == email) = [user])
    (hvt : user.verification.bind TokenInfo.token = some vt) :
    (requestChangePasswordEmail cfg helpers now store (some email) =
      (⟨204, ResponseBody.empty⟩,
        saveExisting store { user with
          resetPassword := some
            ⟨some helpers.generateUniqueToken,
             some (now + cfg.emailVerificationTTL)⟩ },
        some (sendPasswordChangeEmail cfg helpers { user with
          resetPassword := some
            ⟨some helpers.generateUniqueToken,
             some (now + cfg.emailVerificationTTL)⟩ }))) ∧
    (sendPasswordChangeEmail cfg helpers { user with
        resetPassword := some
          ⟨some helpers.generateUniqueToken,
           some (now + cfg.emailVerificationTTL)⟩ }).text =
      "Change your password by going here: " ++
        (helpers.generateUrl ++ "/reset-password;token=" ++ vt) ∧
    ({ user with
        resetPassword := some
          ⟨some helpers.generateUniqueToken,
           some (now + cfg.emailVerificationTTL)⟩ } : User).resetPassword.bind
      TokenInfo.token = some helpers.generateUniqueToken ∧
    (vt ≠ helpers.generateUniqueToken →
      some vt ≠ ({ user with
        resetPassword := some
          ⟨some helpers.generateUniqueToken,
           some (now + cfg.emailVerificationTTL)⟩ } : User).resetPassword.bind
        TokenInfo.token) := by
  have het : truthy (some email) = some email := by simp [truthy, hene]
  refine ⟨?_, ?_, ?_, ?_⟩
  · simp [requestChangePasswordEmail, het, hmatch]
  · simp [sendPasswordChangeEmail, jsStr, hvt]
  · simp
  · intro h
    simp [h]

/-- Witness for the password-change email theorem at a concrete user
whose verification token vtok differs from the fresh reset token. -/
theorem requestChangePasswordEmail_link_witness :
    (requestChangePasswordEmail cConfig cHelpers 7 [c10User]
        (some "wong@x.io") =
      (⟨204, ResponseBody.empty⟩,
        saveExisting [c10User] { c10User with
          resetPassword := some
            ⟨some cHelpers.generateUniqueToken,
             some (7 + cConfig.emailVerificationTTL)⟩ },
        some (sendPasswordChangeEmail cConfig cHelpers { c10User with
          resetPassword := some
            ⟨some cHelpers.generateUniqueToken,
             some (7 + cConfig.emailVerificationTTL)⟩ }))) ∧
    (sendPasswordChangeEmail cConfig cHelpers { c10User with
        resetPassword := some
          ⟨some cHelpers.generateUniqueToken,
           some (7 + cConfig.emailVerificationTTL)⟩ }).text =
      "Change your password by going here: " ++
        (cHelpers.generateUrl ++ "/reset-password;token=" ++ "vtok") ∧
    ({ c10User with
        resetPassword := some
          ⟨some cHelpers.generateUniqueToken,
           some (7 + cConfig.emailVerificationTTL)⟩ } : User).resetPassword.bind
      TokenInfo.token = some cHelpers.generateUniqueToken ∧
    ("vtok" ≠ cHelpers.generateUniqueToken →
      some "vtok" ≠ ({ c10User with
        resetPassword := some
          ⟨some cHelpers.generateUniqueToken,
           some (7 + cConfig.emailVerificationTTL)⟩ } : User).resetPassword.bind
        TokenInfo.token) :=
  requestChangePasswordEmail_link_uses_verification_token cConfig cHelpers 7
    [c10User] "wong@x.io" c10User "vtok" (by decide) (by decide) (by decide)

end TwoMean
